import Mathlib

/-!
Verification of the chzzk-pipeline repository's specification against a
shallow embedding of its Python source.

Conventions of the embedding:
* Python exceptions are modelled with `Except PyErr`; a function that can
  raise returns `Except PyErr α` and `.error e` models an uncaught exception.
* Python `dict` values that matter only as JSON-ish payloads are modelled by
  `PyVal`; string-keyed dictionaries by association lists.
* Machine integers are Python arbitrary-precision ints, modelled by `Int`.
-/

/-- Python exception values that the embedded code can raise. -/
inductive PyErr where
  | valueError (msg : String)
  | keyError (key : String)
  | typeError (msg : String)
  deriving DecidableEq, Repr

/-- A Python value appearing in the dictionaries the pipeline passes around. -/
inductive PyVal where
  | pyStr (s : String)
  | pyInt (n : Int)
  | pyNone
  deriving DecidableEq, Repr

/-- `d[k]` on a Python dict: raises `KeyError` when the key is absent. -/
def dictGet (d : List (String × PyVal)) (k : String) : Except PyErr PyVal :=
  match d.lookup k with
  | some v => Except.ok v
  | none => Except.error (PyErr.keyError k)

/-- A filesystem path as used by `FileManager.extract_metadata_from_path`:
only the stem and the suffix of a `pathlib.Path` are consulted. -/
structure PyPath where
  stem : String
  suffix : String
  deriving DecidableEq, Repr

/-- `str.split("_")` from Python, on the character list. -/
def splitUnderscoreAux : List Char → List Char → List String
  | [], acc => [String.mk acc.reverse]
  | c :: cs, acc =>
      if c = '_' then String.mk acc.reverse :: splitUnderscoreAux cs []
      else splitUnderscoreAux cs (c :: acc)

/-- `stem.split("_")` from the source; always returns a non-empty list,
matching Python's `str.split` with an explicit separator. -/
def splitUnderscore (s : String) : List String :=
  splitUnderscoreAux s.data []

/-- Error message of Python's `int()` on a non-numeric string. -/
def intParseErrMsg : String := "invalid literal for int() with base 10"

/-- Accumulating digits-only parse; `none` on the first non-digit character. -/
def parseDigitsAux : List Char → Nat → Option Nat
  | [], acc => some acc
  | c :: cs, acc =>
      if c.isDigit then parseDigitsAux cs (acc * 10 + (c.toNat - 48))
      else none

/-- Digits-only parse of a natural number, `none` on empty or non-digit input. -/
def parseDigits : List Char → Option Nat
  | [] => none
  | cs => parseDigitsAux cs 0

/-- Python's `int(s)`: an optional sign followed by digits, else `ValueError`. -/
def int_py (s : String) : Except PyErr Int :=
  match s.data with
  | '-' :: rest =>
      match parseDigits rest with
      | some n => Except.ok (-(n : Int))
      | none => Except.error (PyErr.valueError intParseErrMsg)
  | cs =>
      match parseDigits cs with
      | some n => Except.ok ((n : Int))
      | none => Except.error (PyErr.valueError intParseErrMsg)

/-- `MediaMetadata` from `training_dataset_pipeline/config.py`: a frozen
dataclass with fields `video_id`, `category`, `created_at`. -/
structure MediaMetadata where
  video_id : Int
  category : Option String
  created_at : Option Int
  deriving DecidableEq, Repr

/-- The keyword parameters accepted by the generated `MediaMetadata.__init__`. -/
def mediaMetadataFields : List String := ["video_id", "category", "created_at"]

/-- A call `MediaMetadata(**kwargs)`: Python's call machinery raises
`TypeError` on a keyword argument that is not a dataclass field, and a
`TypeError` when a required field is missing.  Field values are untyped in
Python; the embedding decodes the shapes the repository actually passes. -/
def MediaMetadata.callInit (kwargs : List (String × PyVal)) : Except PyErr MediaMetadata :=
  match kwargs.find? (fun kv => !(mediaMetadataFields.contains kv.1)) with
  | some kv =>
      Except.error (PyErr.typeError
        ("got an unexpected keyword argument " ++ kv.1))
  | none =>
      match kwargs.lookup "video_id", kwargs.lookup "category",
            kwargs.lookup "created_at" with
      | some (PyVal.pyInt v), some c, some d =>
          let catVal : Option String :=
            match c with
            | PyVal.pyStr s => some s
            | _ => none
          let dateVal : Option Int :=
            match d with
            | PyVal.pyInt n => some n
            | _ => none
          Except.ok { video_id := v, category := catVal, created_at := dateVal }
      | _, _, _ =>
          Except.error (PyErr.typeError "missing a required argument")

/-- `FileManager.extract_metadata_from_path` from `common/FileManager.py`,
line for line: the `.jsonl` branch parses the last underscore-separated part
of the stem as the video id; the media branch also parses the leading date
and rejoins the middle parts as the category.  Both branches construct the
metadata with the keyword `date=`, which is not a field of `MediaMetadata`
(the field is `created_at`). -/
def FileManager.extract_metadata_from_path (path : PyPath) : Except PyErr MediaMetadata :=
  if path.suffix = ".jsonl" then
    match int_py ((splitUnderscore path.stem).getLastD "") with
    | Except.error e => Except.error e
    | Except.ok video_id =>
        MediaMetadata.callInit
          [("video_id", PyVal.pyInt video_id), ("category", PyVal.pyNone),
           ("date", PyVal.pyNone)]
  else
    let parts := splitUnderscore path.stem
    match int_py (parts.getLastD "") with
    | Except.error e => Except.error e
    | Except.ok video_id =>
        match int_py (parts.headD "") with
        | Except.error e => Except.error e
        | Except.ok date =>
            let category := String.intercalate "_" (parts.drop 1).dropLast
            MediaMetadata.callInit
              [("video_id", PyVal.pyInt video_id),
               ("category", PyVal.pyStr category),
               ("date", PyVal.pyInt date)]

example : splitUnderscore "chats_123" = ["chats", "123"] := by decide
example : int_py "123" = Except.ok 123 := rfl
example : FileManager.extract_metadata_from_path ⟨"chats_123", ".jsonl"⟩ =
    Except.error (PyErr.typeError "got an unexpected keyword argument date") := rfl

/-! ## Chat message processing (`ChzzkChatProcessor.py`, `models.py`) -/

/-- `ChzzkChatProcessorConfig` from `vod_data_collection_pipeline/config.py`,
with the source's default values. -/
structure ChzzkChatProcessorConfig where
  message_type_chat_code : Int := 1
  message_type_donation_code : Int := 10
  message_status_normal_type : String := "NORMAL"
  donation_type : String := "CHAT"
  deriving DecidableEq, Repr

/-- The configuration produced by `load_chzzk_chat_processor_config`. -/
def defaultChatProcessorConfig : ChzzkChatProcessorConfig := {}

/-- The `extras` blob of a raw message: a string that `json.loads` either
fails on (`invalid`) or parses into a dictionary carrying the three keys the
processor reads (each possibly absent). -/
inductive Extras where
  | invalid
  | fields (donationType : Option String) (payAmount : Option Int)
      (osType : Option String)
  deriving DecidableEq, Repr

/-- Error raised by `json.loads` on an unparsable blob
(`json.JSONDecodeError` is a subclass of `ValueError`). -/
def jsonDecodeErrMsg : String := "Expecting value: line 1 column 1 (char 0)"

/-- One raw chat message as delivered by the feed, with each key the
processor touches; `none` models an absent key. -/
structure RawChat where
  messageTypeCode : Option Int
  messageStatusType : Option String
  content : Option String
  playerMessageTime : Option Int
  userIdHash : Option String
  extras : Option Extras
  deriving DecidableEq, Repr

/-- `chat[k]` on a raw message field: raises `KeyError` when absent. -/
def rawIndex {α : Type} (v : Option α) (key : String) : Except PyErr α :=
  match v with
  | some x => Except.ok x
  | none => Except.error (PyErr.keyError key)

/-- `ChzzkChatProcessor._parse_chat_data`, line for line: reads the optional
fields with `.get`, indexes `playerMessageTime`, `userIdHash` and `extras`
(raising `KeyError` when absent), parses the extras blob (raising on
unparsable JSON), applies the acceptance rule, and on acceptance returns the
dictionary the source builds — whose timestamp key is the string
`"timestamp"`. -/
def ChzzkChatProcessor._parse_chat_data (config : ChzzkChatProcessorConfig)
    (chat : RawChat) : Except PyErr (Option (List (String × PyVal))) :=
  let msg_type_code := chat.messageTypeCode
  let msg_status_type := chat.messageStatusType
  let content := chat.content.getD ""
  match rawIndex chat.playerMessageTime "playerMessageTime" with
  | Except.error e => Except.error e
  | Except.ok player_msg_time =>
  match rawIndex chat.userIdHash "userIdHash" with
  | Except.error e => Except.error e
  | Except.ok user_id_hash =>
  match rawIndex chat.extras "extras" with
  | Except.error e => Except.error e
  | Except.ok Extras.invalid => Except.error (PyErr.valueError jsonDecodeErrMsg)
  | Except.ok (Extras.fields donation_type payAmount osType) =>
      let pay_amount := payAmount.getD 0
      let os_type := osType.getD "not_pc"
      let is_valid := msg_status_type = some config.message_status_normal_type ∧
        (msg_type_code = some config.message_type_chat_code ∨
          donation_type = some config.donation_type)
      if is_valid then
        Except.ok (some
          [("content", PyVal.pyStr content),
           ("timestamp", PyVal.pyInt player_msg_time),
           ("user_id_hash", PyVal.pyStr user_id_hash),
           ("pay_amount", PyVal.pyInt pay_amount),
           ("os_type", PyVal.pyStr os_type)])
      else
        Except.ok none

/-- `ChatLog` from `common/models.py`.  The fields hold the untyped values
that `__init__` copies out of the parsed-chat dictionary. -/
structure ChatLog where
  video_idx : Int
  content : PyVal
  player_msg_time : PyVal
  user_id_hash : PyVal
  pay_amount : PyVal
  os_type : PyVal
  deriving DecidableEq, Repr

/-- `ChatLog.__init__(chat, video_idx)`: indexes the dictionary with the
keys `content`, `player_msg_time`, `user_id_hash`, `pay_amount`, `os_type`,
raising `KeyError` for any that is absent. -/
def ChatLog.init (chat : List (String × PyVal)) (video_idx : Int) :
    Except PyErr ChatLog :=
  match dictGet chat "content" with
  | Except.error e => Except.error e
  | Except.ok content =>
  match dictGet chat "player_msg_time" with
  | Except.error e => Except.error e
  | Except.ok pmt =>
  match dictGet chat "user_id_hash" with
  | Except.error e => Except.error e
  | Except.ok uid =>
  match dictGet chat "pay_amount" with
  | Except.error e => Except.error e
  | Except.ok pay =>
  match dictGet chat "os_type" with
  | Except.error e => Except.error e
  | Except.ok os_v =>
      Except.ok
        { video_idx := video_idx, content := content, player_msg_time := pmt,
          user_id_hash := uid, pay_amount := pay, os_type := os_v }

/-- `ChzzkChatProcessor._extract_chat_log`: parse, and on acceptance build a
`ChatLog` from the parsed dictionary. -/
def ChzzkChatProcessor._extract_chat_log (config : ChzzkChatProcessorConfig)
    (chat : RawChat) (video_idx : Int) : Except PyErr (Option ChatLog) :=
  match ChzzkChatProcessor._parse_chat_data config chat with
  | Except.error e => Except.error e
  | Except.ok none => Except.ok none
  | Except.ok (some chat_log_dict) =>
      match ChatLog.init chat_log_dict video_idx with
      | Except.error e => Except.error e
      | Except.ok log => Except.ok (some log)

/-- `ChzzkChatProcessor.extract_chat_logs`: sequentially extract each
message, keeping the accepted ones; the first uncaught exception aborts. -/
def ChzzkChatProcessor.extract_chat_logs (config : ChzzkChatProcessorConfig)
    (chats : List RawChat) (video_idx : Int) : Except PyErr (List ChatLog) :=
  match chats with
  | [] => Except.ok []
  | c :: rest =>
      match ChzzkChatProcessor._extract_chat_log config c video_idx with
      | Except.error e => Except.error e
      | Except.ok none => ChzzkChatProcessor.extract_chat_logs config rest video_idx
      | Except.ok (some log) =>
          match ChzzkChatProcessor.extract_chat_logs config rest video_idx with
          | Except.error e => Except.error e
          | Except.ok logs => Except.ok (log :: logs)

/-! ## The crawl loop (`VODDataCollectionPipeline._crawl_chat_data_for_video`) -/

/-- The `nextPlayerMessageTime` entry of a response's `content` object:
absent from the dictionary, present with value `null`, or present with an
integer value. -/
inductive NextTime where
  | absent
  | null
  | val (t : Int)
  deriving DecidableEq, Repr

/-- `VideoChatData` from `common/models.py`: wraps `data["content"]`; only
the entries the pipeline reads are modelled. -/
structure VideoChatData where
  nextPlayerMessageTime : NextTime
  videoChats : List RawChat
  deriving DecidableEq, Repr

/-- The property `VideoChatData.next_player_message_time`, which evaluates
`content.get("nextPlayerMessageTime", 0)`: an absent key yields the default
`0`, a present `null` yields Python `None`, modelled as `none`. -/
def VideoChatData.next_player_message_time (v : VideoChatData) : Option Int :=
  match v.nextPlayerMessageTime with
  | NextTime.absent => some 0
  | NextTime.null => none
  | NextTime.val t => some t

/-- The property `VideoChatData.video_chats` (`content.get("videoChats", [])`). -/
def VideoChatData.video_chats (v : VideoChatData) : List RawChat :=
  v.videoChats

/-- The outcome of one `request_chzzk_chats` network call as seen by the
crawl loop: a falsy response (`None` after a failed request, or an empty
dictionary), a truthy response whose `content` is missing or falsy (which
makes `parse_video_chats` raise `ValueError`), or a usable page. -/
inductive FetchOutcome where
  | failure
  | malformed
  | page (c : VideoChatData)
  deriving DecidableEq, Repr

/-- The state of the crawl loop for one video: still fetching with a cursor
and a consecutive-failure retry count, or terminated.  `done` models
`_crawl_chat_data_for_video` returning `True`, `failed` returning `False`. -/
inductive CrawlState where
  | fetching (cursor : Int) (retryCount : Nat)
  | done
  | failed
  deriving DecidableEq, Repr

/-- `max_retries` from `_crawl_chat_data_for_video`. -/
def maxRetries : Nat := 3

/-- Whether a crawl state is terminal (the `while` loop has been left). -/
def CrawlState.isTerminal : CrawlState → Bool
  | CrawlState.done => true
  | CrawlState.failed => true
  | _ => false

/-- One iteration of the `while` loop of `_crawl_chat_data_for_video`,
consuming the outcome of the fetch it issued: a falsy response increments
the retry count and retries the same cursor while `retry_count < max_retries`,
otherwise returns `False`; a missing `content` raises and the `except` arm
returns `False`; a page resets the retry count and continues with
`next_player_message_time`, leaving the loop (returning `True`) only when
that property is `None`. -/
def crawlStep : CrawlState → FetchOutcome → CrawlState
  | CrawlState.fetching cursor retryCount, FetchOutcome.failure =>
      if retryCount < maxRetries then CrawlState.fetching cursor (retryCount + 1)
      else CrawlState.failed
  | CrawlState.fetching _ _, FetchOutcome.malformed => CrawlState.failed
  | CrawlState.fetching _ _, FetchOutcome.page c =>
      match c.next_player_message_time with
      | none => CrawlState.done
      | some t => CrawlState.fetching t 0
  | s, _ => s

/-- Run the crawl loop against a sequence of fetch outcomes, one outcome per
network call issued; returns the final state and the number of network calls
issued (outcomes consumed).  A terminal state issues no further calls. -/
def crawlRun : CrawlState → List FetchOutcome → CrawlState × Nat
  | s, [] => (s, 0)
  | s, o :: os =>
      if s.isTerminal then (s, 0)
      else
        let r := crawlRun (crawlStep s o) os
        (r.1, r.2 + 1)

/-- The per-streamer loop of `crawl_chat_data`: every video in the work list
is processed (the per-video crawl result only feeds the success tally), and
a `failed` video does not stop the batch.  Returns
`(processed_videos, successful_crawls)`. -/
def crawl_chat_data_loop (outcomes : Int → List FetchOutcome) :
    List Int → Nat × Nat
  | [] => (0, 0)
  | video_id :: rest =>
      let ok := (crawlRun (CrawlState.fetching 0 0) (outcomes video_id)).1 =
        CrawlState.done
      let r := crawl_chat_data_loop outcomes rest
      (r.1 + 1, if ok then r.2 + 1 else r.2)

/-! ## Segment merging (`VADSegmentExtractor.merge_segments`) -/

/-- The sweep of `merge_segments` after the accumulator has been seeded:
`(cs, ce)` is the running accumulator; an interval within `merge_threshold_ms`
of the accumulator's end is absorbed, otherwise the accumulator is emitted
through the inclusive length filter and reseeded; the final accumulator is
flushed through the same filter. -/
def mergeLoop (merge_threshold_ms min_length_ms max_length_ms : Int) :
    Int → Int → List (Int × Int) → List (Int × Int)
  | cs, ce, [] =>
      if min_length_ms ≤ ce - cs ∧ ce - cs ≤ max_length_ms then [(cs, ce)]
      else []
  | cs, ce, (s, e) :: rest =>
      if s - ce ≤ merge_threshold_ms then
        mergeLoop merge_threshold_ms min_length_ms max_length_ms cs e rest
      else if min_length_ms ≤ ce - cs ∧ ce - cs ≤ max_length_ms then
        (cs, ce) :: mergeLoop merge_threshold_ms min_length_ms max_length_ms s e rest
      else
        mergeLoop merge_threshold_ms min_length_ms max_length_ms s e rest

/-- `VADSegmentExtractor.merge_segments`: empty input yields the empty list;
otherwise the accumulator is seeded from the first interval and the sweep
runs over the rest. -/
def merge_segments (speech_timestamps_ms : List (Int × Int))
    (merge_threshold_ms min_length_ms max_length_ms : Int) : List (Int × Int) :=
  match speech_timestamps_ms with
  | [] => []
  | (s, e) :: rest => mergeLoop merge_threshold_ms min_length_ms max_length_ms s e rest

example : merge_segments [(0, 1000), (1200, 2000)] 500 0 100000 = [(0, 2000)] := by decide
example : merge_segments [(0, 1000), (2000, 2500)] 500 0 100000 =
    [(0, 1000), (2000, 2500)] := by decide
example : merge_segments [(0, 100)] 500 200 100000 = [] := by decide
example : merge_segments [] 500 0 100000 = [] := by decide

/-! ## Pipelines (`VODDataCollectionPipeline.py`, `TrainingDatasetPipeline.py`)

The external collaborators are passed as values: the database id sets (the
`ChzzkDBHandler.get_video_ids` / `get_video_idx` methods are not present in
the repository's `ChzzkDBHandler.py`; they are modelled from the spec as the
identifier sets the store reports), the per-streamer `FileManager` as the
lists its getters return, and the chat feed as the per-video outcome lists. -/

/-- The per-streamer `FileManager` collaborator, as the values its path
getters return.  `vadPaths` is modelled from the spec:
`get_vad_segments_data_paths` is called by `TrainingDatasetPipeline` but
missing from `FileManager.py`. -/
structure FileManagerData where
  videoPaths : List PyPath
  audioPaths : List PyPath
  chatPaths : List PyPath
  vadPaths : List PyPath
  deriving DecidableEq, Repr

/-- The error message of the `file_manager` property when `_file_manager`
is `None` (identical in both pipeline classes). -/
def fmNotSetMsg : String :=
  "File manager is not set. Call set_file_manager() before using pipeline methods."

/-- The `file_manager` property shared by both pipelines: raises
`ValueError` when the per-streamer file manager has not been set. -/
def file_manager_get (fm : Option FileManagerData) :
    Except PyErr FileManagerData :=
  match fm with
  | none => Except.error (PyErr.valueError fmNotSetMsg)
  | some m => Except.ok m

/-- `VideoLog` from `common/models.py` (field order as in the dataclass). -/
structure VideoLog where
  streamer_idx : Int
  video_id : Int
  category : String
  created_at : Int
  video_url : String
  deriving DecidableEq, Repr

/-- `datetime.strptime(str(created_at), "%Y%m%d")`: raises `ValueError` when
`created_at` is `None` (the string `"None"` does not parse); a present
eight-digit date is accepted.  The embedding keeps the parsed value as the
raw `YYYYMMDD` integer. -/
def strptime_yyyymmdd (created_at : Option Int) : Except PyErr Int :=
  match created_at with
  | none => Except.error (PyErr.valueError "time data does not match format")
  | some n => Except.ok n

/-- The `for path in video_data_paths` loop of `store_video_logs`: extract
metadata for each path (`extract` stands for the file manager's
`extract_metadata_from_path`), and collect a `VideoLog` for each video id
not already stored. -/
def buildVideoLogs (extract : PyPath → Except PyErr MediaMetadata)
    (streamer_idx : Int) (stored_video_ids : Finset Int) :
    List PyPath → Except PyErr (List VideoLog)
  | [] => Except.ok []
  | path :: rest =>
      match extract path with
      | Except.error e => Except.error e
      | Except.ok md =>
          if md.video_id ∉ stored_video_ids then
            match strptime_yyyymmdd md.created_at with
            | Except.error e => Except.error e
            | Except.ok d =>
                match buildVideoLogs extract streamer_idx stored_video_ids rest with
                | Except.error e => Except.error e
                | Except.ok logs =>
                    Except.ok
                      ({ streamer_idx := streamer_idx, video_id := md.video_id,
                         category := md.category.getD "", created_at := d,
                         video_url := path.stem ++ path.suffix } :: logs)
          else buildVideoLogs extract streamer_idx stored_video_ids rest

/-- `VODDataCollectionPipeline.store_video_logs`: returns the list of video
logs passed to `insert_video_data_bulk` (empty when no insert is performed).
The database's stored-id set (`get_video_ids`) is the `stored_video_ids`
argument. -/
def VODDataCollectionPipeline.store_video_logs
    (extract : PyPath → Except PyErr MediaMetadata)
    (fm : Option FileManagerData) (streamer_idx : Int)
    (stored_video_ids : Finset Int) : Except PyErr (List VideoLog) :=
  match file_manager_get fm with
  | Except.error e => Except.error e
  | Except.ok m =>
      if m.videoPaths = [] then Except.ok []
      else buildVideoLogs extract streamer_idx stored_video_ids m.videoPaths

/-- The ids a `store_video_logs` run inserts into the `videos` table. -/
def insertedIds (logs : List VideoLog) : Finset Int :=
  (logs.map VideoLog.video_id).toFinset

/-- The set comprehension
`{extract_metadata_from_path(p).video_id for p in paths}` used by
`crawl_chat_data`, `store_chat_logs` and the training pipeline. -/
def extractIds (extract : PyPath → Except PyErr MediaMetadata) :
    List PyPath → Except PyErr (Finset Int)
  | [] => Except.ok ∅
  | path :: rest =>
      match extract path with
      | Except.error e => Except.error e
      | Except.ok md =>
          match extractIds extract rest with
          | Except.error e => Except.error e
          | Except.ok ids => Except.ok (insert md.video_id ids)

/-- `VODDataCollectionPipeline.crawl_chat_data`: computes the work set
`stored_video_ids - chat_data_video_ids` and crawls every video in it,
returning `(processed_videos, successful_crawls)`. -/
def VODDataCollectionPipeline.crawl_chat_data
    (extract : PyPath → Except PyErr MediaMetadata)
    (fm : Option FileManagerData) (stored_video_ids : Finset Int)
    (outcomes : Int → List FetchOutcome) : Except PyErr (Nat × Nat) :=
  match file_manager_get fm with
  | Except.error e => Except.error e
  | Except.ok m =>
      match extractIds extract m.chatPaths with
      | Except.error e => Except.error e
      | Except.ok chat_data_video_ids =>
          let video_ids_to_process := stored_video_ids \ chat_data_video_ids
          Except.ok (crawl_chat_data_loop outcomes
            (video_ids_to_process.sort (· ≤ ·)))

/-- The work-set expression of `store_chat_logs` (source lines 211–214):
`chat_data_video_ids & (stored_video_ids - processed_chats_video_ids)`,
where the two database sets are `get_video_ids(streamer_idx,
has_chat_data=False)` and `get_video_ids(streamer_idx, has_chat_data=True)`. -/
def video_ids_to_process (chat_data_video_ids stored_video_ids
    processed_chats_video_ids : Finset Int) : Finset Int :=
  chat_data_video_ids ∩ (stored_video_ids \ processed_chats_video_ids)

/-- Modelled from the spec: the formula
`needs_chat_extraction = (chat_pages_on_disk ∩ ids_in_db) −
ids_with_extracted_chat_in_db` of §4.1, stated in the spec's own terms. -/
def needs_chat_extraction_spec (chat_pages_on_disk ids_in_db
    ids_with_extracted_chat_in_db : Finset Int) : Finset Int :=
  (chat_pages_on_disk ∩ ids_in_db) \ ids_with_extracted_chat_in_db

/-- The per-video body of `_store_chat_logs_for_video` followed by the loop
of `store_chat_logs`: for each video of the work set, extract the chat logs
of its chat file (`get_video_idx` modelled from the spec as `video_idx`)
and collect the rows passed to `insert_chat_data_bulk`. -/
def storeChatLogsLoop (config : ChzzkChatProcessorConfig)
    (video_idx : Int → Int) (chat_file : Int → List RawChat) :
    List Int → Except PyErr (List ChatLog)
  | [] => Except.ok []
  | v :: rest =>
      match ChzzkChatProcessor.extract_chat_logs config (chat_file v)
          (video_idx v) with
      | Except.error e => Except.error e
      | Except.ok logs =>
          match storeChatLogsLoop config video_idx chat_file rest with
          | Except.error e => Except.error e
          | Except.ok more => Except.ok (logs ++ more)

/-- `VODDataCollectionPipeline.store_chat_logs`: computes the work set from
the two database partitions and the chat files on disk, and stores the chat
logs of every video in it. -/
def VODDataCollectionPipeline.store_chat_logs
    (config : ChzzkChatProcessorConfig)
    (extract : PyPath → Except PyErr MediaMetadata)
    (fm : Option FileManagerData)
    (stored_video_ids processed_chats_video_ids : Finset Int)
    (video_idx : Int → Int) (chat_file : Int → List RawChat) :
    Except PyErr (List ChatLog) :=
  match file_manager_get fm with
  | Except.error e => Except.error e
  | Except.ok m =>
      match extractIds extract m.chatPaths with
      | Except.error e => Except.error e
      | Except.ok chat_data_video_ids =>
          let work := video_ids_to_process chat_data_video_ids
            stored_video_ids processed_chats_video_ids
          if work = ∅ then Except.ok []
          else storeChatLogsLoop config video_idx chat_file (work.sort (· ≤ ·))

/-- `VODDataCollectionPipeline.run`: sets the per-streamer file manager
first, then runs the three steps in order with the concrete
`FileManager.extract_metadata_from_path`; an uncaught exception of a step
aborts the run. -/
def VODDataCollectionPipeline.run (config : ChzzkChatProcessorConfig)
    (fmData : FileManagerData) (streamer_idx : Int)
    (stored_video_ids crawl_stored_ids chat_stored_ids
      processed_chats_video_ids : Finset Int)
    (outcomes : Int → List FetchOutcome) (video_idx : Int → Int)
    (chat_file : Int → List RawChat) : Except PyErr Unit :=
  let fm : Option FileManagerData := some fmData
  match VODDataCollectionPipeline.store_video_logs
      FileManager.extract_metadata_from_path fm streamer_idx stored_video_ids with
  | Except.error e => Except.error e
  | Except.ok _ =>
  match VODDataCollectionPipeline.crawl_chat_data
      FileManager.extract_metadata_from_path fm crawl_stored_ids outcomes with
  | Except.error e => Except.error e
  | Except.ok _ =>
  match VODDataCollectionPipeline.store_chat_logs config
      FileManager.extract_metadata_from_path fm chat_stored_ids
      processed_chats_video_ids video_idx chat_file with
  | Except.error e => Except.error e
  | Except.ok _ => Except.ok ()

/-- `TrainingDatasetPipeline.extract_audios`: skips videos whose audio
already exists; returns the video ids whose audio was extracted and saved. -/
def TrainingDatasetPipeline.extract_audios
    (extract : PyPath → Except PyErr MediaMetadata)
    (fm : Option FileManagerData) : Except PyErr (List Int) :=
  match file_manager_get fm with
  | Except.error e => Except.error e
  | Except.ok m =>
      match extractIds extract m.audioPaths with
      | Except.error e => Except.error e
      | Except.ok audio_video_ids =>
          (m.videoPaths.foldlM (fun acc path =>
            match extract path with
            | Except.error e => Except.error e
            | Except.ok md =>
                if md.video_id ∈ audio_video_ids then Except.ok acc
                else Except.ok (acc ++ [md.video_id])) [])

/-- `TrainingDatasetPipeline.extract_vad_segments`: skips audios whose VAD
segments already exist; returns the video ids whose segments were saved. -/
def TrainingDatasetPipeline.extract_vad_segments
    (extract : PyPath → Except PyErr MediaMetadata)
    (fm : Option FileManagerData) : Except PyErr (List Int) :=
  match file_manager_get fm with
  | Except.error e => Except.error e
  | Except.ok m =>
      match extractIds extract m.vadPaths with
      | Except.error e => Except.error e
      | Except.ok vad_segment_video_ids =>
          (m.audioPaths.foldlM (fun acc path =>
            match extract path with
            | Except.error e => Except.error e
            | Except.ok md =>
                if md.video_id ∈ vad_segment_video_ids then Except.ok acc
                else Except.ok (acc ++ [md.video_id])) [])

/-! ## Theorems -/

/-- A loop that has returned `True` issues no further network calls. -/
theorem crawlRun_done (os : List FetchOutcome) :
    crawlRun CrawlState.done os = (CrawlState.done, 0) := by
  cases os <;> simp [crawlRun, CrawlState.isTerminal]

/-- A loop that has returned `False` issues no further network calls. -/
theorem crawlRun_failed (os : List FetchOutcome) :
    crawlRun CrawlState.failed os = (CrawlState.failed, 0) := by
  cases os <;> simp [crawlRun, CrawlState.isTerminal]

/-- C1 counterexample: a fetched response whose `content` object lacks
`nextPlayerMessageTime` is not treated as terminal — `content.get` returns
the default `0`, the state after the page is again `FETCHING(0)`, not
`DONE`, and the loop issues a further fetch. -/
theorem c1_absent_key_not_terminal :
    crawlStep (CrawlState.fetching 0 0)
      (FetchOutcome.page ⟨NextTime.absent, []⟩) = CrawlState.fetching 0 0 ∧
    CrawlState.fetching 0 0 ≠ CrawlState.done ∧
    crawlRun (CrawlState.fetching 0 0)
      [FetchOutcome.page ⟨NextTime.absent, []⟩,
       FetchOutcome.page ⟨NextTime.null, []⟩] = (CrawlState.done, 2) := by
  refine ⟨rfl, by decide, rfl⟩

/-- C1 amended: the crawl loop treats only an explicitly `null`
`nextPlayerMessageTime` as the terminal sentinel — such a response ends the
loop in `DONE` after exactly the one fetch that returned it, and a terminal
loop issues no further fetches; a response whose content merely lacks the
key yields the default cursor `0` and the loop keeps fetching. -/
theorem c1_null_sentinel_terminates (cursor : Int) (r : Nat)
    (chats : List RawChat) (rest : List FetchOutcome) :
    crawlRun (CrawlState.fetching cursor r)
      (FetchOutcome.page ⟨NextTime.null, chats⟩ :: rest) =
      (CrawlState.done, 1) ∧
    crawlStep (CrawlState.fetching cursor r)
      (FetchOutcome.page ⟨NextTime.absent, chats⟩) =
      CrawlState.fetching 0 0 := by
  constructor
  · simp [crawlRun, CrawlState.isTerminal, crawlStep,
      VideoChatData.next_player_message_time, crawlRun_done]
  · rfl

/-- C5 counterexample: three consecutive failed fetches for cursor `0` do
not terminate the loop — a fourth network call is issued, and with a
successful fourth fetch the loop ends in `DONE` after four calls. -/
theorem c5_three_failures_not_terminal :
    crawlRun (CrawlState.fetching 0 0)
      [FetchOutcome.failure, FetchOutcome.failure, FetchOutcome.failure,
       FetchOutcome.page ⟨NextTime.null, []⟩] = (CrawlState.done, 4) := by
  rfl

/-- C5 amended: after `max_retries + 1 = 4` consecutive failed fetches for
the same cursor (the initial attempt plus `max_retries` retries, the streak
not interrupted by any success), the loop terminates in `FAILED` and issues
no further network calls for that video; and the surrounding per-streamer
batch processes every video of the work list regardless of such failures. -/
theorem c5_four_failures_terminate_failed (cursor : Int)
    (rest : List FetchOutcome) :
    crawlRun (CrawlState.fetching cursor 0)
      (FetchOutcome.failure :: FetchOutcome.failure :: FetchOutcome.failure ::
        FetchOutcome.failure :: rest) = (CrawlState.failed, 4) ∧
    ∀ (outcomes : Int → List FetchOutcome) (ids : List Int),
      (crawl_chat_data_loop outcomes ids).1 = ids.length := by
  constructor
  · simp [crawlRun, CrawlState.isTerminal, crawlStep, maxRetries,
      crawlRun_failed]
  · intro outcomes ids
    induction ids with
    | nil => rfl
    | cons v rest ih => simp [crawl_chat_data_loop, ih]

/-- A raw message that passes the acceptance rule: normal status, plain
chat type code, an extras blob without donation fields. -/
def acceptedRawChat : RawChat :=
  { messageTypeCode := some 1, messageStatusType := some "NORMAL",
    content := some "hello", playerMessageTime := some 1000,
    userIdHash := some "user1", extras := some (Extras.fields none none none) }

/-- C2: the code contradicts its own contract — for a message that passes
the filter, `_parse_chat_data` returns the dictionary under the key
`"timestamp"`, but `ChatLog.__init__` indexes `chat["player_msg_time"]`, so
`_extract_chat_log` raises `KeyError` on every accepted message instead of
returning the canonical record. -/
theorem c2_accepted_message_raises_key_error :
    ChzzkChatProcessor._parse_chat_data defaultChatProcessorConfig
      acceptedRawChat =
      Except.ok (some
        [("content", PyVal.pyStr "hello"),
         ("timestamp", PyVal.pyInt 1000),
         ("user_id_hash", PyVal.pyStr "user1"),
         ("pay_amount", PyVal.pyInt 0),
         ("os_type", PyVal.pyStr "not_pc")]) ∧
    ChzzkChatProcessor._extract_chat_log defaultChatProcessorConfig
      acceptedRawChat 7 =
      Except.error (PyErr.keyError "player_msg_time") := by
  refine ⟨by rfl, by rfl⟩

/-- C3: the code contradicts its own contract — for both naming
conventions, `extract_metadata_from_path` constructs the metadata with the
keyword `date=`, which is not a field of `MediaMetadata` (the field is
`created_at`), so every call raises `TypeError` instead of returning the
metadata carrying the encoded video id. -/
theorem c3_extract_metadata_raises_type_error :
    FileManager.extract_metadata_from_path ⟨"chats_123", ".jsonl"⟩ =
      Except.error (PyErr.typeError "got an unexpected keyword argument date") ∧
    FileManager.extract_metadata_from_path ⟨"20240101_talk_456", ".mp4"⟩ =
      Except.error (PyErr.typeError "got an unexpected keyword argument date") := by
  refine ⟨by rfl, by rfl⟩

/-- On a well-formed message (present `playerMessageTime`, `userIdHash` and
a parsable `extras` blob), `_parse_chat_data` evaluates to the acceptance
rule's verdict with the defaulted payment amount and platform tag. -/
theorem parse_chat_data_wellformed (code : Option Int) (status : Option String)
    (content : Option String) (t : Int) (uid : String) (d : Option String)
    (p : Option Int) (o : Option String) :
    ChzzkChatProcessor._parse_chat_data defaultChatProcessorConfig
      ⟨code, status, content, some t, some uid, some (Extras.fields d p o)⟩ =
    Except.ok (if status = some "NORMAL" ∧ (code = some 1 ∨ d = some "CHAT") then
      some [("content", PyVal.pyStr (content.getD "")),
            ("timestamp", PyVal.pyInt t),
            ("user_id_hash", PyVal.pyStr uid),
            ("pay_amount", PyVal.pyInt (p.getD 0)),
            ("os_type", PyVal.pyStr (o.getD "not_pc"))]
      else none) := by
  simp only [ChzzkChatProcessor._parse_chat_data, rawIndex,
    defaultChatProcessorConfig]
  split <;> rfl

/-- C8: on well-formed raw messages the filter keeps a message exactly when
its status is `"NORMAL"` and its type code is `1` or its donation type is
`"CHAT"`; in particular `NORMAL`/type `1` is kept, `BLIND` is rejected, a
mission donation (donation type code `10`, `donationType="MISSION"`) is
rejected, and `NORMAL` with `donationType="CHAT"` is kept for every type
code; an absent `payAmount` defaults to `0` and an absent `osType` to
`"not_pc"` in the returned record. -/
theorem c8_acceptance_rule :
    (∀ (code : Option Int) (status : Option String) (content : Option String)
        (t : Int) (uid : String) (d : Option String) (p : Option Int)
        (o : Option String),
      ChzzkChatProcessor._parse_chat_data defaultChatProcessorConfig
        ⟨code, status, content, some t, some uid, some (Extras.fields d p o)⟩ =
      Except.ok (if status = some "NORMAL" ∧ (code = some 1 ∨ d = some "CHAT")
        then some [("content", PyVal.pyStr (content.getD "")),
              ("timestamp", PyVal.pyInt t),
              ("user_id_hash", PyVal.pyStr uid),
              ("pay_amount", PyVal.pyInt (p.getD 0)),
              ("os_type", PyVal.pyStr (o.getD "not_pc"))]
        else none)) ∧
    ChzzkChatProcessor._parse_chat_data defaultChatProcessorConfig
      ⟨some 1, some "NORMAL", some "hi", some 5, some "u",
        some (Extras.fields none none none)⟩ =
      Except.ok (some
        [("content", PyVal.pyStr "hi"), ("timestamp", PyVal.pyInt 5),
         ("user_id_hash", PyVal.pyStr "u"), ("pay_amount", PyVal.pyInt 0),
         ("os_type", PyVal.pyStr "not_pc")]) ∧
    ChzzkChatProcessor._parse_chat_data defaultChatProcessorConfig
      ⟨some 1, some "BLIND", some "hi", some 5, some "u",
        some (Extras.fields none none none)⟩ = Except.ok none ∧
    ChzzkChatProcessor._parse_chat_data defaultChatProcessorConfig
      ⟨some 10, some "NORMAL", some "hi", some 5, some "u",
        some (Extras.fields (some "MISSION") (some 1000) (some "PC"))⟩ =
      Except.ok none ∧
    ∀ (code : Option Int),
      ChzzkChatProcessor._parse_chat_data defaultChatProcessorConfig
        ⟨code, some "NORMAL", some "hi", some 5, some "u",
          some (Extras.fields (some "CHAT") (some 1000) (some "PC"))⟩ =
        Except.ok (some
          [("content", PyVal.pyStr "hi"), ("timestamp", PyVal.pyInt 5),
           ("user_id_hash", PyVal.pyStr "u"), ("pay_amount", PyVal.pyInt 1000),
           ("os_type", PyVal.pyStr "PC")]) := by
  refine ⟨parse_chat_data_wellformed, by rfl, by rfl, by rfl, ?_⟩
  intro code
  rw [parse_chat_data_wellformed]
  simp

/-- C9 counterexample: the filter is not total — a message lacking the
`playerMessageTime` key makes `_parse_chat_data` raise `KeyError` rather
than return a record or the rejection value. -/
theorem c9_missing_field_raises :
    ChzzkChatProcessor._parse_chat_data defaultChatProcessorConfig
      ⟨some 1, some "NORMAL", some "hi", none, some "u",
        some (Extras.fields none none none)⟩ =
      Except.error (PyErr.keyError "playerMessageTime") ∧
    ChzzkChatProcessor._parse_chat_data defaultChatProcessorConfig
      ⟨some 1, some "NORMAL", some "hi", some 5, some "u",
        some Extras.invalid⟩ =
      Except.error (PyErr.valueError jsonDecodeErrMsg) := by
  refine ⟨by rfl, by rfl⟩

/-- C9 amended: the classification stage of the filter is total on
well-formed messages — for every message with `playerMessageTime`,
`userIdHash` and a parsable `extras` blob present, `_parse_chat_data`
returns a verdict (a parsed record or the rejection value `None`) and does
not raise; messages missing one of those fields or carrying an unparsable
extras blob raise `KeyError`/`ValueError` instead of being rejected. -/
theorem c9_total_on_wellformed (code : Option Int) (status : Option String)
    (content : Option String) (t : Int) (uid : String) (d : Option String)
    (p : Option Int) (o : Option String) :
    ∃ verdict, ChzzkChatProcessor._parse_chat_data defaultChatProcessorConfig
      ⟨code, status, content, some t, some uid, some (Extras.fields d p o)⟩ =
      Except.ok verdict :=
  ⟨_, parse_chat_data_wellformed code status content t uid d p o⟩

/-- Invariant of the merge sweep: if the accumulator `(cs, ce)` is a proper
interval, every pending interval starts no earlier than `cs` and is proper,
and the pending intervals are sorted by start, then every emitted interval
is proper and starts no earlier than `cs`, and consecutive emitted
intervals are strictly separated. -/
theorem mergeLoop_sound (gap mnL mxL : Int) (hgap : 0 ≤ gap) :
    ∀ (l : List (Int × Int)) (cs ce : Int), cs < ce →
      (∀ q ∈ l, cs ≤ q.1 ∧ q.1 < q.2) →
      l.Pairwise (fun a b => a.1 ≤ b.1) →
      (∀ q ∈ mergeLoop gap mnL mxL cs ce l, cs ≤ q.1 ∧ q.1 < q.2) ∧
      (mergeLoop gap mnL mxL cs ce l).Pairwise (fun a b => a.2 < b.1) := by
  intro l
  induction l with
  | nil =>
      intro cs ce hce _ _
      constructor
      · intro q hq
        simp only [mergeLoop] at hq
        split at hq
        · simp only [List.mem_singleton] at hq
          rw [hq]
          exact ⟨le_refl cs, hce⟩
        · simp at hq
      · simp only [mergeLoop]
        split
        · exact List.pairwise_singleton _ _
        · exact List.Pairwise.nil
  | cons hd tl ih =>
      intro cs ce hce hall hpw
      obtain ⟨s, e⟩ := hd
      have hhd : cs ≤ s ∧ s < e := hall (s, e) (by simp)
      have htl : ∀ q ∈ tl, cs ≤ q.1 ∧ q.1 < q.2 := fun q hq => hall q (by simp [hq])
      have hpw' := List.pairwise_cons.mp hpw
      simp only [mergeLoop]
      by_cases habs : s - ce ≤ gap
      · rw [if_pos habs]
        exact ih cs e (lt_of_le_of_lt hhd.1 hhd.2) htl hpw'.2
      · rw [if_neg habs]
        have htl' : ∀ q ∈ tl, s ≤ q.1 ∧ q.1 < q.2 :=
          fun q hq => ⟨hpw'.1 q hq, (htl q hq).2⟩
        obtain ⟨ih_all, ih_pw⟩ := ih s e hhd.2 htl' hpw'.2
        have hce_lt_s : ce < s := by omega
        by_cases hfit : mnL ≤ ce - cs ∧ ce - cs ≤ mxL
        · rw [if_pos hfit]
          constructor
          · intro q hq
            rcases List.mem_cons.mp hq with h | h
            · rw [h]
              exact ⟨le_refl cs, hce⟩
            · exact ⟨le_trans hhd.1 (ih_all q h).1, (ih_all q h).2⟩
          · refine List.pairwise_cons.mpr ⟨?_, ih_pw⟩
            intro q hq
            exact lt_of_lt_of_le hce_lt_s (ih_all q hq).1
        · rw [if_neg hfit]
          exact ⟨fun q hq => ⟨le_trans hhd.1 (ih_all q hq).1, (ih_all q hq).2⟩, ih_pw⟩

/-- C4: for every non-empty interval list sorted by start with proper
intervals, and every non-negative merge gap and any length bounds, the
intervals returned by `merge_segments` are pairwise non-overlapping
(`a.end_ms ≤ b.start_ms`, in fact strictly separated) and sorted by
`start_ms`. -/
theorem c4_merge_segments_sorted_disjoint (l : List (Int × Int))
    (merge_threshold_ms min_length_ms max_length_ms : Int)
    (hne : l ≠ [])
    (hsorted : l.Pairwise (fun a b => a.1 ≤ b.1))
    (hvalid : ∀ q ∈ l, q.1 < q.2)
    (hgap : 0 ≤ merge_threshold_ms) :
    (merge_segments l merge_threshold_ms min_length_ms max_length_ms).Pairwise
      (fun a b => a.2 ≤ b.1 ∧ a.1 < b.1) := by
  match l, hne with
  | (s, e) :: rest, _ =>
    simp only [merge_segments]
    have hpw := List.pairwise_cons.mp hsorted
    have hrest : ∀ q ∈ rest, s ≤ q.1 ∧ q.1 < q.2 :=
      fun q hq => ⟨hpw.1 q hq, hvalid q (by simp [hq])⟩
    obtain ⟨hall, hdisj⟩ := mergeLoop_sound merge_threshold_ms min_length_ms
      max_length_ms hgap rest s e (hvalid (s, e) (by simp)) hrest hpw.2
    exact hdisj.imp_of_mem (fun {a b} ha _ hab =>
      ⟨le_of_lt hab, lt_trans (hall a ha).2 hab⟩)

/-- C4 witness: the gap-merging example from the spec satisfies the
precondition, and the theorem applies to it. -/
theorem c4_merge_segments_sorted_disjoint_witness :
    (merge_segments [(0, 1000), (1200, 2000)] 500 0 100000).Pairwise
      (fun a b => a.2 ≤ b.1 ∧ a.1 < b.1) :=
  c4_merge_segments_sorted_disjoint [(0, 1000), (1200, 2000)] 500 0 100000
    (by decide) (by decide) (by decide) (by decide)

/-- C7: when the database's identifier sets partition the stored ids by the
`has_chat_data` flag, the work-set expression of `store_chat_logs` —
`chat_data_video_ids ∩ (stored_video_ids − processed_chats_video_ids)` —
equals the spec's formula
`(chat_pages_on_disk ∩ ids_in_db) − ids_with_extracted_chat_in_db`. -/
theorem c7_work_set_equals_spec_formula (chat_pages_on_disk ids_without_chat
    ids_with_chat ids_in_db : Finset Int)
    (hdisj : ids_without_chat ∩ ids_with_chat = ∅)
    (hunion : ids_without_chat ∪ ids_with_chat = ids_in_db) :
    video_ids_to_process chat_pages_on_disk ids_without_chat ids_with_chat =
      needs_chat_extraction_spec chat_pages_on_disk ids_in_db ids_with_chat := by
  subst hunion
  ext x
  have hd : x ∈ ids_without_chat → x ∉ ids_with_chat := by
    intro h1 h2
    have hx : x ∈ ids_without_chat ∩ ids_with_chat :=
      Finset.mem_inter.mpr ⟨h1, h2⟩
    rw [hdisj] at hx
    exact absurd hx (Finset.not_mem_empty x)
  simp only [video_ids_to_process, needs_chat_extraction_spec,
    Finset.mem_inter, Finset.mem_sdiff, Finset.mem_union]
  tauto

/-- C7 witness: the theorem applied to concrete disjoint partitions. -/
theorem c7_work_set_equals_spec_formula_witness :
    video_ids_to_process ({1, 2, 3} : Finset Int) {1, 4} {2} =
      needs_chat_extraction_spec {1, 2, 3} {1, 4, 2} {2} :=
  c7_work_set_equals_spec_formula {1, 2, 3} {1, 4} {2} {1, 4, 2}
    (by decide) (by decide)

/-- Once every id a completed `store_video_logs` run inserted is stored,
the per-path loop finds no remaining work against any store that has only
grown since. -/
theorem buildVideoLogs_grown_store_empty
    (extract : PyPath → Except PyErr MediaMetadata) (si : Int) :
    ∀ (paths : List PyPath) (stored : Finset Int) (logs : List VideoLog),
      buildVideoLogs extract si stored paths = Except.ok logs →
      ∀ S : Finset Int, stored ∪ insertedIds logs ⊆ S →
        buildVideoLogs extract si S paths = Except.ok [] := by
  intro paths
  induction paths with
  | nil => intro stored logs _ S _; rfl
  | cons p rest ih =>
      intro stored logs h S hS
      simp only [buildVideoLogs] at h ⊢
      cases hex : extract p with
      | error e => rw [hex] at h; simp at h
      | ok md =>
          rw [hex] at h
          dsimp only at h ⊢
          by_cases hmem : md.video_id ∈ stored
          · rw [if_neg (by simp [hmem])] at h
            have hmemS : md.video_id ∈ S :=
              (Finset.union_subset_iff.mp hS).1 hmem
            rw [if_neg (by simp [hmemS])]
            exact ih stored logs h S hS
          · rw [if_pos hmem] at h
            cases hst : strptime_yyyymmdd md.created_at with
            | error e => rw [hst] at h; simp at h
            | ok d =>
                rw [hst] at h
                dsimp only at h
                cases hrest : buildVideoLogs extract si stored rest with
                | error e => rw [hrest] at h; simp at h
                | ok logs' =>
                    rw [hrest] at h
                    dsimp only at h
                    injection h with hlogs
                    have hidS : md.video_id ∈ S := by
                      apply (Finset.union_subset_iff.mp hS).2
                      rw [← hlogs]
                      simp [insertedIds]
                    rw [if_neg (by simp [hidS])]
                    apply ih stored logs' hrest S
                    apply Finset.union_subset (Finset.union_subset_iff.mp hS).1
                    apply le_trans _ (Finset.union_subset_iff.mp hS).2
                    rw [← hlogs]
                    simp only [insertedIds, List.map_cons, List.toFinset_cons]
                    exact Finset.subset_insert _ _

/-- A completed `store_video_logs` run only inserts videos that were not
already stored. -/
theorem buildVideoLogs_inserts_fresh
    (extract : PyPath → Except PyErr MediaMetadata) (si : Int) :
    ∀ (paths : List PyPath) (stored : Finset Int) (logs : List VideoLog),
      buildVideoLogs extract si stored paths = Except.ok logs →
      ∀ lg ∈ logs, lg.video_id ∉ stored := by
  intro paths
  induction paths with
  | nil =>
      intro stored logs h lg hlg
      simp only [buildVideoLogs] at h
      cases h
      simp at hlg
  | cons p rest ih =>
      intro stored logs h lg hlg
      simp only [buildVideoLogs] at h
      cases hex : extract p with
      | error e => rw [hex] at h; simp at h
      | ok md =>
          rw [hex] at h
          dsimp only at h
          by_cases hmem : md.video_id ∈ stored
          · rw [if_neg (by simp [hmem])] at h
            exact ih stored logs h lg hlg
          · rw [if_pos hmem] at h
            cases hst : strptime_yyyymmdd md.created_at with
            | error e => rw [hst] at h; simp at h
            | ok d =>
                rw [hst] at h
                dsimp only at h
                cases hrest : buildVideoLogs extract si stored rest with
                | error e => rw [hrest] at h; simp at h
                | ok logs' =>
                    rw [hrest] at h
                    dsimp only at h
                    injection h with hlogs
                    rw [← hlogs] at hlg
                    rcases List.mem_cons.mp hlg with heq | hmore
                    · rw [heq]
                      exact hmem
                    · exact ih stored logs' hrest lg hmore

/-- C6: the metadata-storage step is idempotent — if `store_video_logs`
runs to completion inserting `logs`, then against any stored-id set that
has since only grown beyond `stored ∪ insertedIds logs` (in particular, the
set a second run reads when nothing external mutated), the recomputed
work set is empty and no insert is performed; and a video already stored
never re-enters the work set. -/
theorem c6_store_video_logs_idempotent
    (extract : PyPath → Except PyErr MediaMetadata) (fmData : FileManagerData)
    (streamer_idx : Int) (stored : Finset Int) (logs : List VideoLog)
    (h : VODDataCollectionPipeline.store_video_logs extract (some fmData)
      streamer_idx stored = Except.ok logs) :
    (∀ growth : Finset Int,
      VODDataCollectionPipeline.store_video_logs extract (some fmData)
        streamer_idx ((stored ∪ insertedIds logs) ∪ growth) = Except.ok []) ∧
    ∀ lg ∈ logs, lg.video_id ∉ stored := by
  simp only [VODDataCollectionPipeline.store_video_logs, file_manager_get] at h ⊢
  by_cases hempty : fmData.videoPaths = []
  · rw [if_pos hempty] at h
    injection h with hlogs
    constructor
    · intro growth
      rw [if_pos hempty]
    · rw [← hlogs]
      simp
  · rw [if_neg hempty] at h
    constructor
    · intro growth
      rw [if_neg hempty]
      exact buildVideoLogs_grown_store_empty extract streamer_idx
        fmData.videoPaths stored logs h ((stored ∪ insertedIds logs) ∪ growth)
        Finset.subset_union_left
    · exact buildVideoLogs_inserts_fresh extract streamer_idx
        fmData.videoPaths stored logs h

/-- A file-manager collaborator whose extractor follows the naming
convention for the single video file below. -/
def c6ExtractW : PyPath → Except PyErr MediaMetadata :=
  fun _ => Except.ok
    { video_id := 123, category := some "talk", created_at := some 20240101 }

/-- The per-streamer file manager of the C6 witness: one video file. -/
def c6FmW : FileManagerData :=
  { videoPaths := [⟨"20240101_talk_123", ".mp4"⟩], audioPaths := [],
    chatPaths := [], vadPaths := [] }

/-- The single log the first C6 witness run inserts. -/
def c6LogsW : List VideoLog :=
  [{ streamer_idx := 5, video_id := 123, category := "talk",
     created_at := 20240101, video_url := "20240101_talk_123.mp4" }]

/-- C6 witness: after a completed first run from an empty store, a second
run against the grown store (here further grown by an unrelated id `99`)
computes an empty work set and performs no insert. -/
theorem c6_store_video_logs_idempotent_witness :
    VODDataCollectionPipeline.store_video_logs c6ExtractW (some c6FmW) 5
      ((∅ ∪ insertedIds c6LogsW) ∪ {99}) = Except.ok [] :=
  (c6_store_video_logs_idempotent c6ExtractW c6FmW 5 ∅ c6LogsW (by rfl)).1 {99}

/-- An exception raised by `dict` indexing is a `KeyError` for that key. -/
theorem dictGet_error (d : List (String × PyVal)) (k : String) (e : PyErr)
    (h : dictGet d k = Except.error e) : e = PyErr.keyError k := by
  unfold dictGet at h
  split at h <;> simp_all

/-- An exception raised by raw-message indexing is a `KeyError` for that key. -/
theorem rawIndex_error {α : Type} (v : Option α) (k : String) (e : PyErr)
    (h : rawIndex v k = Except.error e) : e = PyErr.keyError k := by
  unfold rawIndex at h
  split at h <;> simp_all

/-- An exception raised by `int()` is the int-parse `ValueError`. -/
theorem int_py_error (s : String) (e : PyErr) (h : int_py s = Except.error e) :
    e = PyErr.valueError intParseErrMsg := by
  unfold int_py at h
  split at h <;> split at h <;> simp_all

/-- An exception raised by the `MediaMetadata` constructor is a `TypeError`,
never the file-manager guard's `ValueError`. -/
theorem callInit_error_ne_fm (kwargs : List (String × PyVal)) (e : PyErr)
    (h : MediaMetadata.callInit kwargs = Except.error e) :
    e ≠ PyErr.valueError fmNotSetMsg := by
  unfold MediaMetadata.callInit at h
  split at h
  · injection h with h'
    subst h'
    simp
  · split at h
    all_goals first
      | (injection h with h'; subst h'; simp)
      | simp_all

/-- An exception of `extract_metadata_from_path` is never the file-manager
guard's `ValueError`. -/
theorem extract_metadata_error_ne_fm (p : PyPath) (e : PyErr)
    (h : FileManager.extract_metadata_from_path p = Except.error e) :
    e ≠ PyErr.valueError fmNotSetMsg := by
  unfold FileManager.extract_metadata_from_path at h
  split at h
  · cases h1 : int_py ((splitUnderscore p.stem).getLastD "") with
    | error e1 =>
        rw [h1] at h
        dsimp only at h
        injection h with h'
        subst h'
        rw [int_py_error _ _ h1]
        decide
    | ok v =>
        rw [h1] at h
        dsimp only at h
        exact callInit_error_ne_fm _ _ h
  · dsimp only at h
    cases h1 : int_py ((splitUnderscore p.stem).getLastD "") with
    | error e1 =>
        rw [h1] at h
        dsimp only at h
        injection h with h'
        subst h'
        rw [int_py_error _ _ h1]
        decide
    | ok v =>
        rw [h1] at h
        dsimp only at h
        cases h2 : int_py ((splitUnderscore p.stem).headD "") with
        | error e2 =>
            rw [h2] at h
            dsimp only at h
            injection h with h'
            subst h'
            rw [int_py_error _ _ h2]
            decide
        | ok d =>
            rw [h2] at h
            dsimp only at h
            exact callInit_error_ne_fm _ _ h

/-- An exception of the message filter is a `KeyError` or the JSON-decode
`ValueError`, never the file-manager guard's `ValueError`. -/
theorem parse_chat_data_error_ne_fm (config : ChzzkChatProcessorConfig)
    (chat : RawChat) (e : PyErr)
    (h : ChzzkChatProcessor._parse_chat_data config chat = Except.error e) :
    e ≠ PyErr.valueError fmNotSetMsg := by
  unfold ChzzkChatProcessor._parse_chat_data at h
  cases h1 : rawIndex chat.playerMessageTime "playerMessageTime" with
  | error e1 =>
      rw [h1] at h
      dsimp only at h
      injection h with h'
      subst h'
      rw [rawIndex_error _ _ _ h1]
      simp
  | ok t =>
      rw [h1] at h
      dsimp only at h
      cases h2 : rawIndex chat.userIdHash "userIdHash" with
      | error e2 =>
          rw [h2] at h
          dsimp only at h
          injection h with h'
          subst h'
          rw [rawIndex_error _ _ _ h2]
          simp
      | ok uid =>
          rw [h2] at h
          dsimp only at h
          cases h3 : rawIndex chat.extras "extras" with
          | error e3 =>
              rw [h3] at h
              dsimp only at h
              injection h with h'
              subst h'
              rw [rawIndex_error _ _ _ h3]
              simp
          | ok ex =>
              rw [h3] at h
              cases ex with
              | invalid =>
                  dsimp only at h
                  injection h with h'
                  subst h'
                  decide
              | fields d pAmt osT =>
                  dsimp only at h
                  split at h <;> simp_all

/-- An exception of `ChatLog.__init__` is a `KeyError`, never the
file-manager guard's `ValueError`. -/
theorem chatLog_init_error_ne_fm (chatd : List (String × PyVal)) (vidx : Int)
    (e : PyErr) (h : ChatLog.init chatd vidx = Except.error e) :
    e ≠ PyErr.valueError fmNotSetMsg := by
  unfold ChatLog.init at h
  cases h1 : dictGet chatd "content" with
  | error e1 =>
      rw [h1] at h
      dsimp only at h
      injection h with h'
      subst h'
      rw [dictGet_error _ _ _ h1]
      simp
  | ok v1 =>
      rw [h1] at h
      dsimp only at h
      cases h2 : dictGet chatd "player_msg_time" with
      | error e2 =>
          rw [h2] at h
          dsimp only at h
          injection h with h'
          subst h'
          rw [dictGet_error _ _ _ h2]
          simp
      | ok v2 =>
          rw [h2] at h
          dsimp only at h
          cases h3 : dictGet chatd "user_id_hash" with
          | error e3 =>
              rw [h3] at h
              dsimp only at h
              injection h with h'
              subst h'
              rw [dictGet_error _ _ _ h3]
              simp
          | ok v3 =>
              rw [h3] at h
              dsimp only at h
              cases h4 : dictGet chatd "pay_amount" with
              | error e4 =>
                  rw [h4] at h
                  dsimp only at h
                  injection h with h'
                  subst h'
                  rw [dictGet_error _ _ _ h4]
                  simp
              | ok v4 =>
                  rw [h4] at h
                  dsimp only at h
                  cases h5 : dictGet chatd "os_type" with
                  | error e5 =>
                      rw [h5] at h
                      dsimp only at h
                      injection h with h'
                      subst h'
                      rw [dictGet_error _ _ _ h5]
                      simp
                  | ok v5 =>
                      rw [h5] at h
                      simp at h

/-- An exception of `_extract_chat_log` is never the file-manager guard's
`ValueError`. -/
theorem extract_chat_log_error_ne_fm (config : ChzzkChatProcessorConfig)
    (chat : RawChat) (vidx : Int) (e : PyErr)
    (h : ChzzkChatProcessor._extract_chat_log config chat vidx = Except.error e) :
    e ≠ PyErr.valueError fmNotSetMsg := by
  unfold ChzzkChatProcessor._extract_chat_log at h
  cases h1 : ChzzkChatProcessor._parse_chat_data config chat with
  | error e1 =>
      rw [h1] at h
      dsimp only at h
      injection h with h'
      subst h'
      exact parse_chat_data_error_ne_fm config chat _ h1
  | ok verdict =>
      rw [h1] at h
      cases verdict with
      | none => simp at h
      | some chatd =>
          dsimp only at h
          cases h2 : ChatLog.init chatd vidx with
          | error e2 =>
              rw [h2] at h
              dsimp only at h
              injection h with h'
              subst h'
              exact chatLog_init_error_ne_fm chatd vidx _ h2
          | ok log =>
              rw [h2] at h
              simp at h

/-- An exception of `extract_chat_logs` is never the file-manager guard's
`ValueError`. -/
theorem extract_chat_logs_error_ne_fm (config : ChzzkChatProcessorConfig)
    (vidx : Int) :
    ∀ (chats : List RawChat) (e : PyErr),
      ChzzkChatProcessor.extract_chat_logs config chats vidx = Except.error e →
      e ≠ PyErr.valueError fmNotSetMsg := by
  intro chats
  induction chats with
  | nil => intro e h; simp [ChzzkChatProcessor.extract_chat_logs] at h
  | cons c rest ih =>
      intro e h
      simp only [ChzzkChatProcessor.extract_chat_logs] at h
      cases h1 : ChzzkChatProcessor._extract_chat_log config c vidx with
      | error e1 =>
          rw [h1] at h
          dsimp only at h
          injection h with h'
          subst h'
          exact extract_chat_log_error_ne_fm config c vidx _ h1
      | ok verdict =>
          rw [h1] at h
          cases verdict with
          | none => exact ih e h
          | some log =>
              dsimp only at h
              cases h2 : ChzzkChatProcessor.extract_chat_logs config rest vidx with
              | error e2 =>
                  rw [h2] at h
                  dsimp only at h
                  injection h with h'
                  subst h'
                  exact ih _ h2
              | ok logs =>
                  rw [h2] at h
                  simp at h

/-- An exception of the `store_chat_logs` per-video loop is never the
file-manager guard's `ValueError`. -/
theorem storeChatLogsLoop_error_ne_fm (config : ChzzkChatProcessorConfig)
    (vidx : Int → Int) (chat_file : Int → List RawChat) :
    ∀ (vs : List Int) (e : PyErr),
      storeChatLogsLoop config vidx chat_file vs = Except.error e →
      e ≠ PyErr.valueError fmNotSetMsg := by
  intro vs
  induction vs with
  | nil => intro e h; simp [storeChatLogsLoop] at h
  | cons v rest ih =>
      intro e h
      simp only [storeChatLogsLoop] at h
      cases h1 : ChzzkChatProcessor.extract_chat_logs config (chat_file v)
          (vidx v) with
      | error e1 =>
          rw [h1] at h
          dsimp only at h
          injection h with h'
          subst h'
          exact extract_chat_logs_error_ne_fm config (vidx v) (chat_file v) _ h1
      | ok logs =>
          rw [h1] at h
          dsimp only at h
          cases h2 : storeChatLogsLoop config vidx chat_file rest with
          | error e2 =>
              rw [h2] at h
              dsimp only at h
              injection h with h'
              subst h'
              exact ih _ h2
          | ok more =>
              rw [h2] at h
              simp at h

/-- An exception of the id-set comprehension is an exception of the
extractor. -/
theorem extractIds_error (extract : PyPath → Except PyErr MediaMetadata) :
    ∀ (paths : List PyPath) (e : PyErr),
      extractIds extract paths = Except.error e →
      ∃ p, extract p = Except.error e := by
  intro paths
  induction paths with
  | nil => intro e h; simp [extractIds] at h
  | cons p rest ih =>
      intro e h
      simp only [extractIds] at h
      cases h1 : extract p with
      | error e1 =>
          rw [h1] at h
          dsimp only at h
          injection h with h'
          subst h'
          exact ⟨p, h1⟩
      | ok md =>
          rw [h1] at h
          dsimp only at h
          cases h2 : extractIds extract rest with
          | error e2 =>
              rw [h2] at h
              dsimp only at h
              injection h with h'
              subst h'
              exact ih _ h2
          | ok ids =>
              rw [h2] at h
              simp at h

/-- An exception of the `store_video_logs` per-path loop is an exception of
the extractor or the `strptime` `ValueError`. -/
theorem buildVideoLogs_error (extract : PyPath → Except PyErr MediaMetadata)
    (si : Int) :
    ∀ (paths : List PyPath) (stored : Finset Int) (e : PyErr),
      buildVideoLogs extract si stored paths = Except.error e →
      (∃ p, extract p = Except.error e) ∨
        e = PyErr.valueError "time data does not match format" := by
  intro paths
  induction paths with
  | nil => intro stored e h; simp [buildVideoLogs] at h
  | cons p rest ih =>
      intro stored e h
      simp only [buildVideoLogs] at h
      cases h1 : extract p with
      | error e1 =>
          rw [h1] at h
          dsimp only at h
          injection h with h'
          subst h'
          exact Or.inl ⟨p, h1⟩
      | ok md =>
          rw [h1] at h
          dsimp only at h
          split at h
          · cases h2 : strptime_yyyymmdd md.created_at with
            | error e2 =>
                rw [h2] at h
                dsimp only at h
                injection h with h'
                subst h'
                unfold strptime_yyyymmdd at h2
                cases hmd : md.created_at with
                | none => rw [hmd] at h2; simp_all
                | some n => rw [hmd] at h2; simp_all
            | ok d =>
                rw [h2] at h
                dsimp only at h
                cases h3 : buildVideoLogs extract si stored rest with
                | error e3 =>
                    rw [h3] at h
                    dsimp only at h
                    injection h with h'
                    subst h'
                    exact ih stored _ h3
                | ok logs =>
                    rw [h3] at h
                    simp at h
          · exact ih stored _ h

/-- An exception of `store_video_logs` with the file manager set is never
the file-manager guard's `ValueError`. -/
theorem store_video_logs_error_ne_fm
    (fmData : FileManagerData) (si : Int) (stored : Finset Int) (e : PyErr)
    (h : VODDataCollectionPipeline.store_video_logs
      FileManager.extract_metadata_from_path (some fmData) si stored =
      Except.error e) : e ≠ PyErr.valueError fmNotSetMsg := by
  simp only [VODDataCollectionPipeline.store_video_logs, file_manager_get] at h
  split at h
  · simp at h
  · rcases buildVideoLogs_error FileManager.extract_metadata_from_path si
      fmData.videoPaths stored e h with ⟨p, hp⟩ | hst
    · exact extract_metadata_error_ne_fm p e hp
    · rw [hst]
      decide

/-- An exception of `crawl_chat_data` with the file manager set is never
the file-manager guard's `ValueError`. -/
theorem crawl_chat_data_error_ne_fm
    (fmData : FileManagerData) (stored : Finset Int)
    (outcomes : Int → List FetchOutcome) (e : PyErr)
    (h : VODDataCollectionPipeline.crawl_chat_data
      FileManager.extract_metadata_from_path (some fmData) stored outcomes =
      Except.error e) : e ≠ PyErr.valueError fmNotSetMsg := by
  simp only [VODDataCollectionPipeline.crawl_chat_data, file_manager_get] at h
  cases h1 : extractIds FileManager.extract_metadata_from_path
      fmData.chatPaths with
  | error e1 =>
      rw [h1] at h
      dsimp only at h
      injection h with h'
      subst h'
      obtain ⟨p, hp⟩ := extractIds_error FileManager.extract_metadata_from_path
        fmData.chatPaths _ h1
      exact extract_metadata_error_ne_fm p _ hp
  | ok ids =>
      rw [h1] at h
      simp at h

/-- An exception of `store_chat_logs` with the file manager set is never
the file-manager guard's `ValueError`. -/
theorem store_chat_logs_error_ne_fm (config : ChzzkChatProcessorConfig)
    (fmData : FileManagerData) (stored processed : Finset Int)
    (vidx : Int → Int) (chat_file : Int → List RawChat) (e : PyErr)
    (h : VODDataCollectionPipeline.store_chat_logs config
      FileManager.extract_metadata_from_path (some fmData) stored processed
      vidx chat_file = Except.error e) :
    e ≠ PyErr.valueError fmNotSetMsg := by
  simp only [VODDataCollectionPipeline.store_chat_logs, file_manager_get] at h
  cases h1 : extractIds FileManager.extract_metadata_from_path
      fmData.chatPaths with
  | error e1 =>
      rw [h1] at h
      dsimp only at h
      injection h with h'
      subst h'
      obtain ⟨p, hp⟩ := extractIds_error FileManager.extract_metadata_from_path
        fmData.chatPaths _ h1
      exact extract_metadata_error_ne_fm p _ hp
  | ok ids =>
      rw [h1] at h
      dsimp only at h
      split at h
      · simp at h
      · exact storeChatLogsLoop_error_ne_fm config vidx chat_file _ _ h

/-- C10: in both pipeline classes, every public file-touching pipeline
method invoked before the per-streamer file manager is set raises the
property's `ValueError` (returning the error, so no store insert is
produced); and `run(streamer_idx)` assigns the file manager before its
three steps, so no step of `run` can ever raise that `ValueError`. -/
theorem c10_file_manager_guard :
    (∀ (extract : PyPath → Except PyErr MediaMetadata) (si : Int)
        (stored : Finset Int),
      VODDataCollectionPipeline.store_video_logs extract none si stored =
        Except.error (PyErr.valueError fmNotSetMsg)) ∧
    (∀ (extract : PyPath → Except PyErr MediaMetadata) (stored : Finset Int)
        (outcomes : Int → List FetchOutcome),
      VODDataCollectionPipeline.crawl_chat_data extract none stored outcomes =
        Except.error (PyErr.valueError fmNotSetMsg)) ∧
    (∀ (config : ChzzkChatProcessorConfig)
        (extract : PyPath → Except PyErr MediaMetadata)
        (stored processed : Finset Int) (vidx : Int → Int)
        (chat_file : Int → List RawChat),
      VODDataCollectionPipeline.store_chat_logs config extract none stored
        processed vidx chat_file =
        Except.error (PyErr.valueError fmNotSetMsg)) ∧
    (∀ extract : PyPath → Except PyErr MediaMetadata,
      TrainingDatasetPipeline.extract_audios extract none =
        Except.error (PyErr.valueError fmNotSetMsg)) ∧
    (∀ extract : PyPath → Except PyErr MediaMetadata,
      TrainingDatasetPipeline.extract_vad_segments extract none =
        Except.error (PyErr.valueError fmNotSetMsg)) ∧
    (∀ (config : ChzzkChatProcessorConfig) (fmData : FileManagerData)
        (si : Int) (stored crawlStored chatStored processed : Finset Int)
        (outcomes : Int → List FetchOutcome) (vidx : Int → Int)
        (chat_file : Int → List RawChat),
      VODDataCollectionPipeline.run config fmData si stored crawlStored
        chatStored processed outcomes vidx chat_file ≠
        Except.error (PyErr.valueError fmNotSetMsg)) := by
  refine ⟨fun _ _ _ => rfl, fun _ _ _ => rfl, fun _ _ _ _ _ _ => rfl,
    fun _ => rfl, fun _ => rfl, ?_⟩
  intro config fmData si stored crawlStored chatStored processed outcomes
    vidx chat_file h
  rw [VODDataCollectionPipeline.run] at h
  cases h1 : VODDataCollectionPipeline.store_video_logs
      FileManager.extract_metadata_from_path (some fmData) si stored with
  | error e1 =>
      rw [h1] at h
      dsimp only at h
      injection h with h'
      exact store_video_logs_error_ne_fm fmData si stored e1 h1 h'
  | ok r1 =>
      rw [h1] at h
      dsimp only at h
      cases h2 : VODDataCollectionPipeline.crawl_chat_data
          FileManager.extract_metadata_from_path (some fmData) crawlStored
          outcomes with
      | error e2 =>
          rw [h2] at h
          dsimp only at h
          injection h with h'
          exact crawl_chat_data_error_ne_fm fmData crawlStored outcomes e2 h2 h'
      | ok r2 =>
          rw [h2] at h
          dsimp only at h
          cases h3 : VODDataCollectionPipeline.store_chat_logs config
              FileManager.extract_metadata_from_path (some fmData) chatStored
              processed vidx chat_file with
          | error e3 =>
              rw [h3] at h
              dsimp only at h
              injection h with h'
              exact store_chat_logs_error_ne_fm config fmData chatStored
                processed vidx chat_file e3 h3 h'
          | ok r3 =>
              rw [h3] at h
              simp at h
